import Mathlib

/-!
Verification of the data-access core of the `formula1-mcp` server
(`src/services/f1-data.service.ts` and `src/index.ts`): the in-memory
TTL cache, the fetch gateway `fetchWithErrorHandling`, the per-method
error-recovery policies of the `F1DataService` facade, and the tool
dispatch surface (tools/list array, tools/call switch, handler
response envelopes).

Modelling conventions:
* JavaScript values flowing through the untyped (`any`) parts of the
  service are modelled by the inductive `Json` type below; JavaScript
  truthiness is `Json.truthy`.
* `Date.now()` is an explicit `now : Nat` parameter (milliseconds).
* The `Map<string, CacheItem>` cache is an association list with
  first-occurrence lookup (`mapGet`/`mapSet`/`mapDelete`), matching
  JavaScript `Map.get`/`Map.set`/`Map.delete` on duplicate-free lists.
* The HTTP transport (`axios.get`) is an oracle
  `net : String → FetchOutcome` mapping a URL to its outcome; each
  routine records the list of URLs it actually GETs in `calls`, so that
  "no network call was made" is `calls = []`.
* A thrown `McpError` becomes the `Except.error` branch of the result.
-/

set_option linter.unusedVariables false

namespace F1

/-- JavaScript/JSON values as handled by the untyped service code.
`null` also stands in for `undefined` where the two are not
distinguished by the code under verification. Numbers are integers
(the service only ever renders integral numbers). -/
inductive Json where
  | null
  | bool (b : Bool)
  | num (n : Int)
  | str (s : String)
  | arr (xs : List Json)
  | obj (fields : List (String × Json))
deriving Repr

/-- JavaScript truthiness of a value (`if (x)`): `null`/`undefined`,
`false`, `0` and `""` are falsy, arrays and objects are truthy. -/
def Json.truthy : Json → Bool
  | .null => false
  | .bool b => b
  | .num n => n != 0
  | .str s => s != ""
  | .arr _ => true
  | .obj _ => true

/-- JavaScript `x.length === 0` after a truthiness guard: true for the
empty array and the empty string; other values have an `undefined`
`length`, and `undefined === 0` is false. -/
def Json.lenIsZero : Json → Bool
  | .arr xs => xs.isEmpty
  | .str s => s.isEmpty
  | _ => false

/-- JavaScript property access `o[k]` on an object: first field with
the given key, `none` for `undefined` (absent key or non-object). -/
def jsField : Json → String → Option Json
  | .obj fs, k => (fs.find? (fun p => p.fst == k)).map Prod.snd
  | _, _ => none

/-- JavaScript index access `a[i]` on an array, `none` for `undefined`. -/
def jsIndex : Json → Nat → Option Json
  | .arr xs, i => xs.get? i
  | _, _ => none

/-- JavaScript `a || b` for an optional string (`undefined` and `""`
are falsy). -/
def jsOrString (a : Option String) (b : String) : String :=
  match a with
  | some s => if s == "" then b else s
  | none => b

/-- JavaScript `a?.x || b` for an optional numeric status
(`undefined` and `0` are falsy). -/
def jsOrNat (a : Option Nat) (b : Nat) : Nat :=
  match a with
  | some s => if s == 0 then b else s
  | none => b

/-- Truthiness of an optional string parameter (`undefined` and `""`
are falsy, as in `if (!sessionKey)`). -/
def jsTruthyStr : Option String → Bool
  | none => false
  | some s => s != ""

/-- Whether the second character list occurs at the start of the first. -/
def listStartsWith : List Char → List Char → Bool
  | _, [] => true
  | [], _ :: _ => false
  | a :: as, b :: bs => a == b && listStartsWith as bs

/-- JavaScript `hay.includes(needle)`: the needle occurs contiguously
somewhere in the haystack. -/
def strIncludes (hay needle : String) : Bool :=
  hay.data.tails.any (fun t => listStartsWith t needle.data)

/-! ## Cache Store

`src/services/f1-data.service.ts` lines 14-18, 226-228, 342-366,
1033-1036: a `Map<string, CacheItem<any>>` keyed by the full request
URL, with per-entry absolute expiry `expiresAt = Date.now() + ttl`. -/

/-- `CacheItem<T> = { data: T; expiresAt: number }`. -/
structure CacheItem where
  data : Json
  expiresAt : Nat
deriving Repr

/-- The in-memory cache `Map<string, CacheItem<any>>`, as an
association list (first occurrence wins, as built by `mapSet`). -/
def Cache := List (String × CacheItem)

/-- `Map.get`: value of the first entry with the given key. -/
def mapGet (c : Cache) (k : String) : Option CacheItem :=
  match c with
  | [] => none
  | (k', v) :: t => if k' == k then some v else mapGet t k

/-- `Map.set`: replace the first entry with the given key, or append. -/
def mapSet (c : Cache) (k : String) (v : CacheItem) : Cache :=
  match c with
  | [] => [(k, v)]
  | (k', v') :: t => if k' == k then (k, v) :: t else (k', v') :: mapSet t k v

/-- `Map.delete`: remove the first entry with the given key. -/
def mapDelete (c : Cache) (k : String) : Cache :=
  match c with
  | [] => []
  | (k', v') :: t => if k' == k then t else (k', v') :: mapDelete t k

/-- `private defaultCacheTTL = 5 * 60 * 1000` (milliseconds). -/
def defaultCacheTTL : Nat := 5 * 60 * 1000

/-- `private liveCacheTTL = 10 * 1000` (milliseconds). -/
def liveCacheTTL : Nat := 10 * 1000

/-- `F1DataService.getCachedData` (f1-data.service.ts lines 343-355):
returns `null` when the key is absent; when `Date.now() > expiresAt`
deletes the entry and returns `null`; otherwise returns the stored
data. The returned pair is (value-or-null, cache after the read). -/
def getCachedData (cache : Cache) (now : Nat) (key : String) :
    Option Json × Cache :=
  match mapGet cache key with
  | none => (none, cache)
  | some item =>
    if now > item.expiresAt then (none, mapDelete cache key)
    else (some item.data, cache)

/-- `F1DataService.setCachedData` (lines 357-366): stores the value
under the key with `expiresAt = Date.now() + ttl` (the TypeScript
default argument `ttl = this.defaultCacheTTL` is applied by callers
via `Option.getD defaultCacheTTL`). Overwrites silently. -/
def setCachedData (cache : Cache) (now : Nat) (key : String)
    (data : Json) (ttl : Nat) : Cache :=
  mapSet cache key ⟨data, now + ttl⟩

/-- `clearCache` (lines 1034-1036): `this.cache.clear()`. -/
def clearCache (_cache : Cache) : Cache := []

/-! ## Fetch Gateway

`fetchWithErrorHandling` (lines 368-400) wraps one `axios.get` with a
cache read, a cache write, and translation of the axios failure into a
thrown `McpError`. -/

/-- `ErrorCode` values of `@modelcontextprotocol/sdk` used here. -/
inductive ErrorCode where
  | internalError
  | invalidRequest
deriving DecidableEq, Repr

/-- A thrown `McpError(code, message)`. -/
structure McpError where
  code : ErrorCode
  message : String
deriving DecidableEq, Repr

/-- Outcome of one HTTP GET: a 2xx response with a JSON body, or a
failure carrying `error.response?.status` (`none` when the failure is
network-level and no response exists). -/
inductive FetchOutcome where
  | success (body : Json)
  | failure (status : Option Nat)

/-- Result of a service routine: the returned/thrown value, the cache
after the call, and the list of URLs actually fetched over HTTP. -/
structure SvcResult (α : Type) where
  result : Except McpError α
  cache : Cache
  calls : List String

/-- `F1DataService.fetchWithErrorHandling` (lines 368-400).
`net` is the HTTP transport oracle; `url` doubles as the cache key.
The cache probe happens only when `useCache`; a cached value is
returned only if it passes the JavaScript truthiness test
`if (cachedData)`. On a fresh fetch, success caches the body (when
`useCache`) and returns it; failure throws
`McpError(InternalError, errorMessage + ": " + (error.response?.status || 0))`. -/
def fetchWithErrorHandling (cache : Cache) (now : Nat)
    (net : String → FetchOutcome) (url errorMessage : String)
    (useCache : Bool) (cacheTTL : Option Nat) : SvcResult Json :=
  let cacheKey := url
  let probe := if useCache then getCachedData cache now cacheKey else (none, cache)
  let doFetch : Cache → SvcResult Json := fun c =>
    match net url with
    | .success body =>
      { result := .ok body
        cache := if useCache then
            setCachedData c now cacheKey body (cacheTTL.getD defaultCacheTTL)
          else c
        calls := [url] }
    | .failure status =>
      let statusCode := jsOrNat status 0
      { result := .error ⟨.internalError, errorMessage ++ ": " ++ toString statusCode⟩
        cache := c
        calls := [url] }
  match probe with
  | (some v, c1) => if v.truthy then { result := .ok v, cache := c1, calls := [] } else doFetch c1
  | (none, c1) => doFetch c1

/-! ## Data Service methods

One function per service method under verification, each threading
(cache, now, net) exactly as the TypeScript method threads
`this.cache` / `Date.now()` / `axios`. -/

/-- `config.openf1BaseUrl` default (`src/config/index.ts` line 126). -/
def OPENF1_BASE_URL : String := "https://api.openf1.org/v1"

/-- `config.fastf1BaseUrl` default (`src/config/index.ts` line 127). -/
def FASTF1_BASE_URL : String := "https://api.jolpi.ca/ergast/f1"

/-- `F1DataService.getLiveWeather` (lines 653-672): fetches
`/weather` with the live TTL; on success returns
`data.length > 0 ? data[0] : null` (a non-array body has an
`undefined` length, so it also yields `null`); in the catch branch,
an error whose message contains `'422'` is suppressed into `null`,
every other error is rethrown. -/
def getLiveWeather (cache : Cache) (now : Nat)
    (net : String → FetchOutcome) : SvcResult Json :=
  let r := fetchWithErrorHandling cache now net (OPENF1_BASE_URL ++ "/weather")
    "Failed to fetch weather data" true (some liveCacheTTL)
  match r.result with
  | .ok data =>
    { r with result := .ok (match data with | .arr (x :: _) => x | _ => .null) }
  | .error e =>
    if e.message != "" && strIncludes e.message "422" then
      { r with result := .ok .null }
    else { r with result := .error e }

/-- `F1DataService.getCurrentSessionStatus` (lines 674-691): fetches
`/session_status` with the live TTL; in the catch branch an error
whose message contains `'422'` or `'404'` is suppressed into the
empty object `{} as SessionData`; every other error is rethrown. -/
def getCurrentSessionStatus (cache : Cache) (now : Nat)
    (net : String → FetchOutcome) : SvcResult Json :=
  let r := fetchWithErrorHandling cache now net (OPENF1_BASE_URL ++ "/session_status")
    "Failed to fetch session status" true (some liveCacheTTL)
  match r.result with
  | .ok data => { r with result := .ok data }
  | .error e =>
    if e.message != "" && (strIncludes e.message "422" || strIncludes e.message "404") then
      { r with result := .ok (.obj []) }
    else { r with result := .error e }

/-- The unwrap chain `data.MRData.RaceTable.Races[0]`
(`getHistoricRaceResults`, line 699). `none` models a JavaScript
`undefined` result of the final index access; an `undefined` at an
intermediate step would throw a TypeError in JavaScript, which no
claim exercises — all claims supply the full wrapper shape. -/
def mrDataRaces0 (data : Json) : Option Json :=
  (jsField data "MRData").bind fun m =>
    (jsField m "RaceTable").bind fun rt =>
      (jsField rt "Races").bind fun races => jsIndex races 0

/-- `F1DataService.getHistoricRaceResults` (lines 694-700): fetches
`FASTF1_BASE_URL/{year}/{round}/results.json` with the default TTL and
no catch of its own — a fetch failure propagates to the caller — and
on success returns `data.MRData.RaceTable.Races[0]`. -/
def getHistoricRaceResults (cache : Cache) (now : Nat)
    (net : String → FetchOutcome) (year round : Int) : SvcResult (Option Json) :=
  let r := fetchWithErrorHandling cache now net
    (FASTF1_BASE_URL ++ "/" ++ toString year ++ "/" ++ toString round ++ "/results.json")
    "Failed to fetch historic race results" true none
  match r.result with
  | .ok data => { result := .ok (mrDataRaces0 data), cache := r.cache, calls := r.calls }
  | .error e => { result := .error e, cache := r.cache, calls := r.calls }

/-- The URL built by `getCarData` before the filter handling
(line 791). -/
def carDataBaseUrl (driverNumber sessionKey : String) : String :=
  OPENF1_BASE_URL ++ "/car_data?driver_number=" ++ driverNumber ++
    "&session_key=" ++ sessionKey

/-- `F1DataService.getCarData` (lines 777-817): when `!sessionKey`
(absent or empty) it throws `McpError(InvalidRequest, ...)` before any
network call; otherwise it builds the car-data URL, appends the
default no-op filter `&speed>=0` when `!filters`, fetches with the
live TTL, and in the catch branch suppresses errors whose message
contains `'422'`, `'404'` or `'Too much data'` into `[]`, rethrowing
the rest. -/
def getCarData (cache : Cache) (now : Nat) (net : String → FetchOutcome)
    (driverNumber : String) (sessionKey filters : Option String) : SvcResult Json :=
  if !jsTruthyStr sessionKey then
    { result := .error ⟨.invalidRequest,
        "session_key is required for car telemetry data. Car data is too granular without filtering."⟩
      cache := cache
      calls := [] }
  else
    let url0 := carDataBaseUrl driverNumber (sessionKey.getD "")
    let url := if !jsTruthyStr filters then url0 ++ "&speed>=0"
      else url0 ++ "&" ++ filters.getD ""
    let r := fetchWithErrorHandling cache now net url
      "Failed to fetch car telemetry data" true (some liveCacheTTL)
    match r.result with
    | .ok data => { r with result := .ok data }
    | .error e =>
      if e.message != "" && (strIncludes e.message "422" || strIncludes e.message "404"
          || strIncludes e.message "Too much data") then
        { r with result := .ok (.arr []) }
      else { r with result := .error e }

/-- The URL built by `getTeamRadio` (lines 860-865). -/
def teamRadioUrl (sessionKey : String) (driverNumber : Option String) : String :=
  "https://api.openf1.org/v1/team_radio?session_key=" ++ sessionKey ++
    (if jsTruthyStr driverNumber then "&driver_number=" ++ driverNumber.getD "" else "")

/-- `F1DataService.getTeamRadio` (lines 850-894): returns `[]` with no
network call when `!sessionKey`; otherwise issues a direct
`axios.get` (no cache read, no cache write — `this.cache` is never
touched, which the unchanged `cache` field records). An empty or
falsy response body gives `[]`; a 422/404/429 failure gives `[]`; and
the final catch returns `[]` for every other failure as well, so the
method never throws. -/
def getTeamRadio (cache : Cache) (net : String → FetchOutcome)
    (sessionKey driverNumber : Option String) : SvcResult Json :=
  if !jsTruthyStr sessionKey then
    { result := .ok (.arr []), cache := cache, calls := [] }
  else
    let url := teamRadioUrl (sessionKey.getD "") driverNumber
    match net url with
    | .success body =>
      if !body.truthy || body.lenIsZero then
        { result := .ok (.arr []), cache := cache, calls := [url] }
      else
        { result := .ok body, cache := cache, calls := [url] }
    | .failure status =>
      if status == some 422 || status == some 404 || status == some 429 then
        { result := .ok (.arr []), cache := cache, calls := [url] }
      else
        -- "For other errors, log but still return empty to avoid breaking client"
        { result := .ok (.arr []), cache := cache, calls := [url] }

/-! ## JSON serialization

`JSON.stringify` as used by the handlers. None of the strings the
server ever serializes contain quotes, backslashes or control
characters, so string escaping is the identity here; numbers are
integral. `jsonStringify v` is the one-argument form,
`jsonStringifyPretty ind v` is `JSON.stringify(v, null, 2)` at current
indentation `ind`. -/

mutual

/-- `JSON.stringify(v)`. -/
def jsonStringify : Json → String
  | .null => "null"
  | .bool b => cond b "true" "false"
  | .num n => toString n
  | .str s => "\"" ++ s ++ "\""
  | .arr xs => "[" ++ stringifyElems xs ++ "]"
  | .obj fs => "\x7b" ++ stringifyFields fs ++ "\x7d"

/-- Comma-joined elements of an array, compact form. -/
def stringifyElems : List Json → String
  | [] => ""
  | [x] => jsonStringify x
  | x :: y :: t => jsonStringify x ++ "," ++ stringifyElems (y :: t)

/-- Comma-joined `"key":value` fields of an object, compact form. -/
def stringifyFields : List (String × Json) → String
  | [] => ""
  | [(k, v)] => "\"" ++ k ++ "\":" ++ jsonStringify v
  | (k, v) :: y :: t => "\"" ++ k ++ "\":" ++ jsonStringify v ++ "," ++ stringifyFields (y :: t)

end

mutual

/-- `JSON.stringify(v, null, 2)` with enclosing indentation `ind`. -/
def jsonStringifyPretty (ind : String) : Json → String
  | .null => "null"
  | .bool b => cond b "true" "false"
  | .num n => toString n
  | .str s => "\"" ++ s ++ "\""
  | .arr [] => "[]"
  | .arr (x :: t) => "[\n" ++ prettyElems (ind ++ "  ") (x :: t) ++ "\n" ++ ind ++ "]"
  | .obj [] => "\x7b\x7d"
  | .obj (f :: t) => "\x7b\n" ++ prettyFields (ind ++ "  ") (f :: t) ++ "\n" ++ ind ++ "\x7d"

/-- Indented, comma-newline-joined array elements. -/
def prettyElems (ind : String) : List Json → String
  | [] => ""
  | [x] => ind ++ jsonStringifyPretty ind x
  | x :: y :: t => ind ++ jsonStringifyPretty ind x ++ ",\n" ++ prettyElems ind (y :: t)

/-- Indented, comma-newline-joined `"key": value` object fields. -/
def prettyFields (ind : String) : List (String × Json) → String
  | [] => ""
  | [(k, v)] => ind ++ "\"" ++ k ++ "\": " ++ jsonStringifyPretty ind v
  | (k, v) :: y :: t =>
      ind ++ "\"" ++ k ++ "\": " ++ jsonStringifyPretty ind v ++ ",\n" ++ prettyFields ind (y :: t)

end

/-! ## Tool Dispatch Surface

`src/index.ts`: the response envelope helper `formatMCPResponse`
(lines 20-72), the per-tool handler result shapes from
`registerAllTools` (lines 75-403), the hand-maintained `tools/list`
array (lines 572-593) and the `tools/call` switch (lines 610-715). -/

/-- One content block `{ type: "text", text: ... }`. -/
structure ContentBlock where
  type : String
  text : String
deriving DecidableEq, Repr

/-- The MCP content envelope `{ content: [...] }`. -/
structure MCPResponse where
  content : List ContentBlock
deriving DecidableEq, Repr

/-- `formatMCPResponse(data, context?)` (index.ts lines 20-72):
`null`/`undefined` becomes a `No data available` message; an empty
array becomes a `No data available` message with a context-sensitive
`suggestion`; a string is passed through verbatim; anything else is
`JSON.stringify(data, null, 2)`. The `try/catch` around this body is
unreachable in the model because serialization is total. Always
exactly one content block. -/
def formatMCPResponse (data : Json) (context : Option String) : MCPResponse :=
  match data with
  | .null =>
    ⟨[⟨"text", jsonStringify (.obj
        [("message", .str "No data available"),
         ("context", .str (jsOrString context "unknown"))])⟩]⟩
  | .arr [] =>
    ⟨[⟨"text", jsonStringify (.obj
        [("message", .str "No data available"),
         ("context", .str (jsOrString context "query returned empty results")),
         ("suggestion", .str
           (if (match context with | some c => strIncludes c "live" | none => false) then
             "Live data is only available during active F1 sessions. Use historical data tools instead."
            else
             "Try adjusting your query parameters or check data availability."))])⟩]⟩
  | .str s => ⟨[⟨"text", s⟩]⟩
  | d => ⟨[⟨"text", jsonStringifyPretty "" d⟩]⟩

/-- The shared handler result shape
`{ content: [{ type: "text", text: JSON.stringify(data) }] }` used by
the plain `registerAllTools` handlers (e.g. `getWeatherData`,
index.ts lines 194-205, and the `tools/call` switch branches). -/
def serializeToolResult (data : Json) : MCPResponse :=
  ⟨[⟨"text", jsonStringify data⟩]⟩

/-- The `getLiveTimingData` handler result (index.ts lines 77-95):
an empty array is replaced by a descriptive message object, any other
value is serialized directly. -/
def getLiveTimingDataToolResult (data : Json) : MCPResponse :=
  match data with
  | .arr [] =>
    ⟨[⟨"text", jsonStringify (.obj [("message", .str
        "No live F1 session data available at the moment. Please check back during a race weekend.")])⟩]⟩
  | d => serializeToolResult d

/-- The `getLiveWeather` handler result (index.ts lines 398-402):
`formatMCPResponse(data || { message: "No weather data available" }, "live weather")`. -/
def getLiveWeatherToolResult (data : Json) : MCPResponse :=
  formatMCPResponse
    (if data.truthy then data else .obj [("message", .str "No weather data available")])
    (some "live weather")

/-- The `clearCache` handler result (index.ts lines 355-365). -/
def clearCacheToolResult : MCPResponse :=
  ⟨[⟨"text", jsonStringify (.obj [("message", .str "Cache cleared successfully")])⟩]⟩

/-- The 20 tool names of the hand-maintained `tools/list` array
(index.ts lines 572-593), in source order. -/
def toolsListNames : List String :=
  ["getLiveTimingData", "getCurrentSessionStatus", "getDriverInfo",
   "getHistoricalSessions", "getHistoricRaceResults", "getDriverStandings",
   "getConstructorStandings", "getWeatherData", "getCarData",
   "getPitStopData", "getTeamRadio", "getRaceControlMessages",
   "getRaceCalendar", "getLapTimes", "getQualifyingResults",
   "getCircuitInfo", "getSeasonList", "getDriverInformation",
   "getConstructorInformation", "clearCache"]

/-- The 20 case labels of the `tools/call` dispatch switch
(index.ts lines 610-715), in source order. -/
def dispatchCaseNames : List String :=
  ["getLiveTimingData", "getCurrentSessionStatus", "getDriverInfo",
   "getHistoricalSessions", "getHistoricRaceResults", "getDriverStandings",
   "getConstructorStandings", "getWeatherData", "getCarData",
   "getPitStopData", "getTeamRadio", "getRaceControlMessages",
   "getRaceCalendar", "getLapTimes", "getQualifyingResults",
   "getCircuitInfo", "getSeasonList", "getDriverInformation",
   "getConstructorInformation", "clearCache"]

/-- The 25 tool names registered on the `McpServer` by
`registerAllTools` (index.ts lines 75-403), in registration order. -/
def registeredToolNames : List String :=
  ["getLiveTimingData", "getCurrentSessionStatus", "getDriverInfo",
   "getHistoricalSessions", "getHistoricRaceResults", "getDriverStandings",
   "getConstructorStandings", "getLapTimes", "getWeatherData",
   "getCarData", "getPitStopData", "getTeamRadio",
   "getRaceControlMessages", "getRaceCalendar", "getCircuitInfo",
   "getSeasonList", "getQualifyingResults", "getDriverInformation",
   "getConstructorInformation", "clearCache", "getLiveCarData",
   "getLivePositions", "getLiveRaceControl", "getLiveTeamRadio",
   "getLiveWeather"]

/-- The `tools/call` dispatch: a name with a switch case is handled;
the `default` branch throws `Unknown tool: <name>` (index.ts
lines 713-714). -/
def dispatchTool (name : String) : Except String Unit :=
  if dispatchCaseNames.contains name then .ok ()
  else .error ("Unknown tool: " ++ name)

/-- Whether a service call threw (`Except.error`). -/
def exceptIsError {α : Type} : Except McpError α → Bool
  | .error _ => true
  | .ok _ => false

/-! ## Helper lemmas -/

/-- `Map.set` followed by `Map.get` on the same key yields the value
just stored. -/
theorem mapGet_mapSet_self (c : Cache) (k : String) (v : CacheItem) :
    mapGet (mapSet c k v) k = some v := by
  induction c with
  | nil => simp [mapSet, mapGet]
  | cons h t ih =>
    obtain ⟨k', v'⟩ := h
    cases hk : (k' == k) <;> simp [mapSet, mapGet, hk, ih]

/-! ## Claims -/

/-- C1 (corrected). Cache Store get/set correctness for the code as
written: `set(k,v,t)` followed immediately by `get(k)` returns `v`
and leaves the store unchanged; a `get` at any time `≤ t` after the
set still returns `v`; and once *strictly more* than `t` has elapsed,
`get(k)` returns absent and that read deletes the entry. (The claim's
boundary — absent already at elapsed `= t`, i.e. return only while
`now < expiresAt` — does not hold: `getCachedData` expires an entry
only when `Date.now() > expiresAt`.) -/
theorem cache_set_get_correctness (c : Cache) (k : String) (v : Json)
    (t now nowMid nowLate : Nat)
    (hmid : nowMid ≤ now + t) (hlate : nowLate > now + t) :
    getCachedData (setCachedData c now k v t) now k
      = (some v, setCachedData c now k v t) ∧
    (getCachedData (setCachedData c now k v t) nowMid k).fst = some v ∧
    getCachedData (setCachedData c now k v t) nowLate k
      = (none, mapDelete (setCachedData c now k v t) k) := by
  have hget := mapGet_mapSet_self c k ⟨v, now + t⟩
  have h1 : ¬ now > now + t := by omega
  have h2 : ¬ nowMid > now + t := by omega
  refine ⟨?_, ?_, ?_⟩
  · simp [getCachedData, setCachedData, hget, h1]
  · simp [getCachedData, setCachedData, hget, h2]
  · simp [getCachedData, setCachedData, hget, hlate]

/-- Witness for C1 at a concrete input: key `"k"`, value `7`, ttl `5`,
set at time `0`, read at times `0`, `3` and `6`. -/
theorem cache_set_get_correctness_witness :
    (getCachedData (setCachedData [] 0 "k" (Json.num 7) 5) 0 "k"
      = (some (Json.num 7), setCachedData [] 0 "k" (Json.num 7) 5)) ∧
    ((getCachedData (setCachedData [] 0 "k" (Json.num 7) 5) 3 "k").fst
      = some (Json.num 7)) ∧
    (getCachedData (setCachedData [] 0 "k" (Json.num 7) 5) 6 "k"
      = (none, mapDelete (setCachedData [] 0 "k" (Json.num 7) 5) "k")) :=
  cache_set_get_correctness [] "k" (Json.num 7) 5 0 3 6 (by omega) (by omega)

/-- C1 counterexample to the claim as stated: with ttl `t = 5`, a
set at time `0` and a get at time `5` — exactly `t` elapsed, so the
claim requires absent — the entry is still returned, because the code
expires it only when `now > expiresAt`, not when `now ≥ expiresAt`. -/
theorem cache_expiry_boundary_counterexample :
    (getCachedData (setCachedData [] 0 "k" (Json.num 1) 5) 5 "k").fst ≠ none ∧
    (getCachedData (setCachedData [] 0 "k" (Json.num 1) 5) 5 "k").fst
      = some (Json.num 1) :=
  ⟨fun h => Option.noConfusion h, rfl⟩

/-- C2 (corrected). Fetch-gateway cache-window guarantee for the code
as written: a call with `useCache = true` that finds an unexpired
cache entry whose value is *truthy* returns that value and performs
no HTTP request; and a GET is issued exactly when no truthy unexpired
entry exists. (The claim as stated — any cached response short-circuits
the fetch within the TTL — fails for falsy cached bodies such as
`null`, because the hit test is the JavaScript truthiness check
`if (cachedData)`.) -/
theorem fetch_gateway_cache_window (cache : Cache) (now : Nat)
    (net : String → FetchOutcome) (url label : String) (ttl : Option Nat) :
    (∀ v, (getCachedData cache now url).fst = some v → v.truthy = true →
      fetchWithErrorHandling cache now net url label true ttl
        = ⟨.ok v, (getCachedData cache now url).snd, []⟩) ∧
    ((fetchWithErrorHandling cache now net url label true ttl).calls = [] ↔
      ∃ v, (getCachedData cache now url).fst = some v ∧ v.truthy = true) := by
  rcases hp : getCachedData cache now url with ⟨o, c1⟩
  rcases o with _ | v
  · constructor
    · intro v hv
      simp at hv
    · simp only [fetchWithErrorHandling, if_true, hp]
      cases hnet : net url <;> simp
  · cases ht : v.truthy
    · constructor
      · intro v' hv' htv'
        simp at hv'
        subst hv'
        rw [ht] at htv'
        exact absurd htv' (by simp)
      · simp only [fetchWithErrorHandling, if_true, hp, ht]
        cases hnet : net url <;> simp [ht]
    · constructor
      · intro v' hv' htv'
        simp at hv'
        subst hv'
        simp [fetchWithErrorHandling, hp, ht]
      · simp [fetchWithErrorHandling, hp, ht]

/-- Witness for C2 at a concrete input: the value `3` cached at time
`0` with ttl `5000` is returned at time `2` with no HTTP call. -/
theorem fetch_gateway_cache_window_witness :
    fetchWithErrorHandling (setCachedData [] 0 "u" (Json.num 3) 5000) 2
      (fun _ => .failure none) "u" "E" true none
      = ⟨.ok (Json.num 3), setCachedData [] 0 "u" (Json.num 3) 5000, []⟩ :=
  (fetch_gateway_cache_window (setCachedData [] 0 "u" (Json.num 3) 5000) 2
    (fun _ => .failure none) "u" "E" none).1 (Json.num 3) rfl rfl

/-- C2 counterexample to the claim as stated: the first call caches
the response body `null` for URL `"u"`; the second call, at time `1`
(well inside the 5-minute default TTL, and the unexpired entry is
still present in the cache), nevertheless issues another GET, because
the cached `null` fails the `if (cachedData)` truthiness test. -/
theorem fetch_gateway_refetch_counterexample :
    ((fetchWithErrorHandling
        (fetchWithErrorHandling [] 0 (fun _ => .success Json.null) "u" "E" true none).cache
        1 (fun _ => .success Json.null) "u" "E" true none).calls = ["u"]) ∧
    (mapGet (fetchWithErrorHandling [] 0 (fun _ => .success Json.null) "u" "E" true none).cache "u"
      = some ⟨Json.null, 300000⟩) ∧
    (1 ≤ 300000) :=
  ⟨rfl, rfl, by omega⟩

/-- C3 (confirmed). Per-method error-policy partition: when the
upstream GET fails with status 422, `getLiveWeather` resolves to
`null` (no throw); when the upstream GET for historic race results
fails with status 404, `getHistoricRaceResults` propagates the
`McpError` to its caller instead of returning an empty value. Both
start from an empty cache so the GET actually happens. -/
theorem error_policy_partition (now : Nat) (year round : Int) :
    (getLiveWeather [] now (fun _ => .failure (some 422))).result = .ok Json.null ∧
    (getHistoricRaceResults [] now (fun _ => .failure (some 404)) year round).result
      = .error ⟨.internalError, "Failed to fetch historic race results: 404"⟩ := by
  exact ⟨rfl, rfl⟩

/-- C4 (confirmed). Required-parameter guard of `getCarData`: with no
`sessionKey` the call throws `McpError(InvalidRequest, ...)` with zero
fetch invocations and an untouched cache, for any `filters` argument;
with a (non-empty) `sessionKey` and no `filters` it proceeds to fetch
exactly the car-data URL with the no-op `&speed>=0` filter appended. -/
theorem car_data_required_parameter_guard (cache : Cache) (now : Nat)
    (net : String → FetchOutcome) (dn : String) (f : Option String)
    (sk : String) (hsk : sk ≠ "") :
    getCarData cache now net dn none f
      = ⟨.error ⟨.invalidRequest,
          "session_key is required for car telemetry data. Car data is too granular without filtering."⟩,
         cache, []⟩ ∧
    (getCarData [] now net dn (some sk) none).calls
      = [carDataBaseUrl dn sk ++ "&speed>=0"] := by
  have hsk' : (sk != "") = true := by simpa using hsk
  refine ⟨rfl, ?_⟩
  simp only [getCarData, jsTruthyStr, hsk', Bool.not_true, Bool.false_eq_true, if_false,
    Option.getD_some]
  cases hnet : net (carDataBaseUrl dn sk ++ "&speed>=0") <;>
    (simp [fetchWithErrorHandling, getCachedData, mapGet, hnet]
     try (split <;> rfl))

/-- Witness for C4 at a concrete input: driver `"44"`, session key
`"9158"`. -/
theorem car_data_required_parameter_guard_witness :
    (getCarData [] 0 (fun _ => .success (Json.arr [])) "44" none none
      = ⟨.error ⟨.invalidRequest,
          "session_key is required for car telemetry data. Car data is too granular without filtering."⟩,
         [], []⟩) ∧
    ((getCarData [] 0 (fun _ => .success (Json.arr [])) "44" (some "9158") none).calls
      = [carDataBaseUrl "44" "9158" ++ "&speed>=0"]) :=
  car_data_required_parameter_guard [] 0 (fun _ => .success (Json.arr [])) "44" none
    "9158" (by decide)

/-- C5 (corrected). Fetch-failure error shape of
`fetchWithErrorHandling` as written: the thrown `McpError` message is
always `errorLabel ++ ": " ++ statusCode`, where `statusCode` is the
upstream status when one is available and the *number `0`* — not the
string `"Unknown error"` — when none is (network-level failure).
(`"Unknown error"` appears only in the authenticated variant
`fetchWithAuth`, which the claim does not exercise.) -/
theorem fetch_error_shape (now : Nat) (url label : String) (s : Nat) :
    (fetchWithErrorHandling [] now (fun _ => .failure (some s)) url label true none).result
      = .error ⟨.internalError, label ++ ": " ++ toString s⟩ ∧
    (fetchWithErrorHandling [] now (fun _ => .failure none) url label true none).result
      = .error ⟨.internalError, label ++ ": " ++ "0"⟩ := by
  constructor
  · by_cases h : s = 0
    · subst h; rfl
    · have h' : (s == 0) = false := by simpa using h
      simp [fetchWithErrorHandling, getCachedData, mapGet, jsOrNat, h']
  · rfl

/-- C5 counterexample to the claim as stated: a network-level failure
(no status available) produces the message `"Label: 0"`; the error
does not carry `"Unknown error"` in place of the status. -/
theorem fetch_error_shape_counterexample :
    (fetchWithErrorHandling [] 0 (fun _ => .failure none) "u" "Label" true none).result
      = .error ⟨.internalError, "Label: 0"⟩ ∧
    strIncludes "Label: 0" "Unknown error" = false :=
  ⟨rfl, rfl⟩

/-- C6 (confirmed). Unwrap correctness: on an upstream response of the
nested wrapper shape `{ MRData: { RaceTable: { Races: [ r, ... ] } } }`
(with arbitrary further races and extra sibling fields at each level),
`getHistoricRaceResults` returns exactly the inner `Races[0]` object
`r`, not the `MRData` wrapper or any intermediate level. -/
theorem historic_results_unwrap (now : Nat) (year round : Int) (r : Json)
    (rest : List Json) (extraRT extraMR extraTop : List (String × Json)) :
    (getHistoricRaceResults [] now
      (fun _ => .success (.obj (("MRData",
        .obj (("RaceTable",
          .obj (("Races", .arr (r :: rest)) :: extraRT)) :: extraMR)) :: extraTop)))
      year round).result = .ok (some r) := by
  rfl

/-- C7 (corrected). Dispatch completeness for the code as written: the
hand-maintained `tools/list` array and the `tools/call` switch agree
exactly — every listed name is a switch case and dispatches to a
handler (never the unknown-tool outcome), and every switch case is
listed. However, five tools registered on the `McpServer` by
`registerAllTools` (`getLiveCarData`, `getLivePositions`,
`getLiveRaceControl`, `getLiveTeamRadio`, `getLiveWeather`) are
orphans: they appear neither in the listing nor in the dispatch
switch. -/
theorem dispatch_completeness_amended :
    toolsListNames.all (fun n => dispatchCaseNames.contains n) = true ∧
    dispatchCaseNames.all (fun n => toolsListNames.contains n) = true ∧
    toolsListNames.all (fun n => (dispatchTool n).isOk) = true ∧
    registeredToolNames.filter (fun n => !toolsListNames.contains n)
      = ["getLiveCarData", "getLivePositions", "getLiveRaceControl",
         "getLiveTeamRadio", "getLiveWeather"] := by
  refine ⟨by decide, by decide, by decide, by decide⟩

/-- C7 counterexample to the claim as stated: `getLiveWeather` is a
registered tool (`registerAllTools`, index.ts lines 398-402) but is
absent from the `tools/list` array, and the `tools/call` dispatch
resolves it to the unknown-tool outcome — an orphan in the
registered-but-not-listed direction. -/
theorem dispatch_orphan_counterexample :
    registeredToolNames.contains "getLiveWeather" = true ∧
    toolsListNames.contains "getLiveWeather" = false ∧
    dispatchTool "getLiveWeather" = .error "Unknown tool: getLiveWeather" :=
  ⟨by decide, by decide, rfl⟩

/-- C8 (corrected). Envelope non-emptiness holds: every handler
response shape — the shared `JSON.stringify` handler, the
`getLiveTimingData` empty-check handler, the `getLiveWeather` handler,
the `clearCache` handler, and `formatMCPResponse` in all its branches
— produces exactly one content block, for every Data Service return
value including `null` and empty arrays. `formatMCPResponse` does
translate an empty array into a structured "no data" message with a
context-specific suggestion (shown concretely in the last conjunct);
but that translation is not applied to every method (see the
counterexample). -/
theorem envelope_nonemptiness_amended :
    (∀ d ctx, (formatMCPResponse d ctx).content.length = 1) ∧
    (∀ d, (serializeToolResult d).content.length = 1) ∧
    (∀ d, (getLiveTimingDataToolResult d).content.length = 1) ∧
    (∀ d, (getLiveWeatherToolResult d).content.length = 1) ∧
    clearCacheToolResult.content.length = 1 ∧
    (formatMCPResponse (.arr []) none).content
      = [⟨"text",
          "\x7b\"message\":\"No data available\",\"context\":\"query returned empty results\",\"suggestion\":\"Try adjusting your query parameters or check data availability.\"\x7d"⟩] := by
  refine ⟨?_, fun d => rfl, ?_, ?_, rfl, rfl⟩
  · intro d ctx
    cases d with
    | arr xs => cases xs <;> rfl
    | _ => rfl
  · intro d
    cases d with
    | arr xs => cases xs <;> rfl
    | _ => rfl
  · intro d
    cases d with
    | arr xs => cases xs <;> rfl
    | bool b => cases b <;> rfl
    | num n =>
      by_cases h : n = 0
      · subst h; rfl
      · have h' : (n != 0) = true := by simpa using h
        simp only [getLiveWeatherToolResult, Json.truthy, h', if_true]
        rfl
    | str s =>
      by_cases h : s = ""
      · subst h; rfl
      · have h' : (s != "") = true := by simpa using h
        simp only [getLiveWeatherToolResult, Json.truthy, h', if_true]
        rfl
    | _ => rfl

/-- C8 counterexample to the claim as stated: the plain handlers
(e.g. `getWeatherData`, and every `tools/call` switch branch)
serialize an empty collection returned by the Data Service as the
bare JSON text `"[]"` — no structured "no data" message and no
suggestion — so the no-data translation does not hold for every Data
Service return value. -/
theorem envelope_no_data_counterexample :
    serializeToolResult (.arr []) = ⟨[⟨"text", "[]"⟩]⟩ ∧
    strIncludes "[]" "No data available" = false :=
  ⟨rfl, rfl⟩

/-- For every valid HTTP status other than 422 and 404, the
`getCurrentSessionStatus` catch does not match (the message
`"Failed to fetch session status: <s>"` contains neither `'422'` nor
`'404'` for `s < 600`), so the error propagates. Checked exhaustively
over all statuses below 600. -/
theorem sessionStatus_other_failures_propagate : ∀ s : Nat, s < 600 → s ≠ 422 → s ≠ 404 →
    exceptIsError (getCurrentSessionStatus [] 0 (fun _ => .failure (some s))).result = true := by
  set_option maxRecDepth 10000 in
  set_option maxHeartbeats 4000000 in
  decide

/-- C9 (confirmed). `getCurrentSessionStatus` never surfaces a 422 or
404 upstream failure as an error or as `null`: both resolve to the
empty object `{}`; any other upstream failure — any other valid HTTP
status, or a network-level failure carrying no status — propagates as
an error. -/
theorem session_status_error_suppression (s : Nat)
    (h1 : s ≤ 599) (h2 : s ≠ 422) (h3 : s ≠ 404) :
    (getCurrentSessionStatus [] 0 (fun _ => .failure (some 422))).result = .ok (.obj []) ∧
    (getCurrentSessionStatus [] 0 (fun _ => .failure (some 404))).result = .ok (.obj []) ∧
    exceptIsError (getCurrentSessionStatus [] 0 (fun _ => .failure (some s))).result = true ∧
    exceptIsError (getCurrentSessionStatus [] 0 (fun _ => .failure none)).result = true :=
  ⟨rfl, rfl, sessionStatus_other_failures_propagate s (by omega) h2 h3, rfl⟩

/-- Witness for C9 at a concrete input: status 500 propagates, while
422 and 404 are suppressed into `{}`. -/
theorem session_status_error_suppression_witness :
    (getCurrentSessionStatus [] 0 (fun _ => .failure (some 422))).result = .ok (.obj []) ∧
    (getCurrentSessionStatus [] 0 (fun _ => .failure (some 404))).result = .ok (.obj []) ∧
    exceptIsError (getCurrentSessionStatus [] 0 (fun _ => .failure (some 500))).result = true ∧
    exceptIsError (getCurrentSessionStatus [] 0 (fun _ => .failure none)).result = true :=
  session_status_error_suppression 500 (by omega) (by decide) (by decide)

/-- C10 (confirmed). `getTeamRadio` is total over failures and
bypasses the Cache Store: an absent or empty `sessionKey` yields `[]`
with no network request; with a real `sessionKey`, *every* upstream
failure — 422, 404, 429, any other status, or a network-level error —
also yields `[]`; the cache is never read or written (it is returned
unchanged for every input), and every call with a truthy `sessionKey`
issues a fresh GET regardless of the cache contents. The method's
result is `.ok` for every input: it never throws. -/
theorem team_radio_never_throws (cache : Cache) (net : String → FetchOutcome)
    (dn : Option String) (sk : String) (hsk : sk ≠ "") (status : Option Nat) :
    getTeamRadio cache net none dn = ⟨.ok (.arr []), cache, []⟩ ∧
    getTeamRadio cache net (some "") dn = ⟨.ok (.arr []), cache, []⟩ ∧
    getTeamRadio cache (fun _ => .failure status) (some sk) dn
      = ⟨.ok (.arr []), cache, [teamRadioUrl sk dn]⟩ ∧
    ((getTeamRadio cache net (some sk) dn).cache = cache ∧
     (getTeamRadio cache net (some sk) dn).calls = [teamRadioUrl sk dn]) ∧
    (∀ sko : Option String, exceptIsError (getTeamRadio cache net sko dn).result = false) := by
  have hsk' : (sk != "") = true := by simpa using hsk
  refine ⟨rfl, rfl, ?_, ?_, ?_⟩
  · simp only [getTeamRadio, jsTruthyStr, hsk', Bool.not_true, Bool.false_eq_true, if_false,
      Option.getD_some]
    split <;> rfl
  · constructor <;>
      (simp only [getTeamRadio, jsTruthyStr, hsk', Bool.not_true, Bool.false_eq_true, if_false,
        Option.getD_some]
       split <;> (split <;> rfl))
  · intro sko
    rcases sko with _ | s0
    · rfl
    · by_cases h0 : s0 = ""
      · subst h0; rfl
      · have h0' : (s0 != "") = true := by simpa using h0
        simp only [getTeamRadio, jsTruthyStr, h0', Bool.not_true, Bool.false_eq_true, if_false,
          Option.getD_some]
        cases net (teamRadioUrl s0 dn) <;> (try split) <;> (try split) <;> rfl

/-- Witness for C10 at a concrete input: session key `"9158"`, a
server-error transport, and an absent key. -/
theorem team_radio_never_throws_witness :
    getTeamRadio [] (fun _ => .failure (some 500)) none none = ⟨.ok (.arr []), [], []⟩ ∧
    getTeamRadio [] (fun _ => .failure (some 500)) (some "9158") none
      = ⟨.ok (.arr []), [], [teamRadioUrl "9158" none]⟩ ∧
    exceptIsError (getTeamRadio [] (fun _ => .failure (some 500)) (some "9158") none).result
      = false :=
  ⟨(team_radio_never_throws [] (fun _ => .failure (some 500)) none "9158"
      (by decide) (some 500)).1,
   (team_radio_never_throws [] (fun _ => .failure (some 500)) none "9158"
      (by decide) (some 500)).2.2.1,
   (team_radio_never_throws [] (fun _ => .failure (some 500)) none "9158"
      (by decide) (some 500)).2.2.2.2 (some "9158")⟩

end F1
